import Mathlib

/-!
Verification of the demo collaborators of the Global-Trajectory-Optimization
repository (file `examples/nonholonomic-car-demo.cpp`).

The demo defines five collaborators for the glc planner: a spherical goal
region, planar disk obstacles, a Euclidean heuristic, an arc-length cost
functional and a discretized control-input set.  All of them observe a
trajectory segment (`glc::InterpolatingPolynomial`) only through the four
methods `initialTime()`, `numberOfIntervals()`, `intervalLength()` and
`at(t)`, so the segment is embedded as an abstract record of those four
observations.  C++ `double` arithmetic in the sampling loops is modelled by
exact rational arithmetic (those loops use only field operations and order
comparisons, all executable over `ℚ`); the heuristic, which takes a square
root, and the steering-angle bounds, which mention `π`, are modelled over `ℝ`.
C++ `int` members are modelled by `ℤ`.
-/

/-- Model of `glc::sqr`: squaring, `x * x`. -/
def sqr {α : Type} [Mul α] (x : α) : α := x * x

/-- Abstract model of a `glc::InterpolatingPolynomial` trajectory segment,
recording exactly the observations the demo code makes of it.  The state
vector (a `std::valarray<double>`) is modelled as `ℕ → ℚ`; the demo only
reads components 0 and 1.  The field `atTime` models the C++ method `at`
(a reserved word in Lean). -/
structure InterpolatingPolynomial where
  initialTime : ℚ
  numberOfIntervals : ℤ
  intervalLength : ℚ
  atTime : ℚ → (ℕ → ℚ)

/-- Duration of a segment, `numberOfIntervals() * intervalLength()`, as the
demo code computes it. -/
def InterpolatingPolynomial.duration (traj : InterpolatingPolynomial) : ℚ :=
  (traj.numberOfIntervals : ℚ) * traj.intervalLength

/-- Member state of class `Sphericalgoal` (field order as declared in the
source). -/
structure Sphericalgoal where
  radius_sqr : ℚ
  center : ℕ → ℚ
  resolution : ℤ

/-- Guard of the sampling loop in `Sphericalgoal::inGoal`: with
`state = traj->at(τ)`, the condition
`sqr(state[0]-center[0]) + sqr(state[1]-center[1]) < radius_sqr`. -/
def goalHit (g : Sphericalgoal) (traj : InterpolatingPolynomial) (τ : ℚ) : Prop :=
  sqr (traj.atTime τ 0 - g.center 0) + sqr (traj.atTime τ 1 - g.center 1) < g.radius_sqr

instance (g : Sphericalgoal) (traj : InterpolatingPolynomial) (τ : ℚ) :
    Decidable (goalHit g traj τ) :=
  inferInstanceAs (Decidable (_ < _))

/-- Loop of `Sphericalgoal::inGoal`: starting from accumulated time `time`,
run `n` more iterations of `for(int i=0;i<resolution;i++){ time+=dt; ... }`.
Returns the pair (return value, final value of the out-parameter `time`). -/
def inGoalLoop (g : Sphericalgoal) (traj : InterpolatingPolynomial) (dt : ℚ) :
    ℚ → ℕ → Bool × ℚ
  | time, 0 => (false, time)
  | time, n + 1 =>
    let time' := time + dt
    if goalHit g traj time' then
      (true, time')
    else
      inGoalLoop g traj dt time' n

/-- Model of `Sphericalgoal::inGoal`: `time` is set to `traj->initialTime()`,
`dt = (numberOfIntervals*intervalLength)/resolution`, and the loop body runs
`resolution` times (zero times when `resolution ≤ 0`, exactly as the C++ loop
`for(int i=0;i<resolution;i++)` does).  The C++ out-parameter `time` becomes
the second component of the returned pair. -/
def Sphericalgoal.inGoal (g : Sphericalgoal) (traj : InterpolatingPolynomial) : Bool × ℚ :=
  let time := traj.initialTime
  let dt := ((traj.numberOfIntervals : ℚ) * traj.intervalLength) / (g.resolution : ℚ)
  inGoalLoop g traj dt time g.resolution.toNat

/-- Member state of class `EuclideanHeuristic`.  Over `ℝ` because `costToGo`
takes a square root. -/
structure EuclideanHeuristic where
  radius : ℝ
  goal : ℕ → ℝ

/-- Model of `EuclideanHeuristic::costToGo`:
`max(0.0, sqrt(sqr(goal[0]-state[0])+sqr(goal[1]-state[1])) - radius)`.
(`Real.sqrt` carries no executable code, hence the modifier.) -/
noncomputable def EuclideanHeuristic.costToGo (h : EuclideanHeuristic) (state : ℕ → ℝ) : ℝ :=
  max 0 (Real.sqrt (sqr (h.goal 0 - state 0) + sqr (h.goal 1 - state 1)) - h.radius)

/-- Member state of class `ArcLength` (the base-class constant
`glc::CostFunction(0.0)` plays no role in `cost`).  The constructor converts
its `int` argument to `double`, hence the `ℚ` field. -/
structure ArcLength where
  sample_resolution : ℚ

/-- The `ArcLength(int)` constructor. -/
def ArcLength.ofSampleResolution (r : ℤ) : ArcLength :=
  ⟨(r : ℚ)⟩

/-- Model of `ArcLength::cost`: returns
`traj->numberOfIntervals()*traj->intervalLength()`, ignoring the control
segment, `t0`, `tf` and the member `sample_resolution`. -/
def ArcLength.cost (_a : ArcLength) (traj _control : InterpolatingPolynomial)
    (_t0 _tf : ℚ) : ℚ :=
  (traj.numberOfIntervals : ℚ) * traj.intervalLength

/-- Member state of class `PlanarDemoObstacles` (field order as declared). -/
structure PlanarDemoObstacles where
  resolution : ℤ
  center1 : ℕ → ℚ
  center2 : ℕ → ℚ

/-- A two-component `std::valarray<double>` initializer list `{a, b}`. -/
def vec2 (a b : ℚ) : ℕ → ℚ :=
  fun i => if i = 0 then a else if i = 1 then b else 0

/-- The `PlanarDemoObstacles(int)` constructor: `center1({3.0,2.0})`,
`center2({6.0,8.0})`. -/
def PlanarDemoObstacles.ofResolution (r : ℤ) : PlanarDemoObstacles :=
  ⟨r, vec2 3 2, vec2 6 8⟩

/-- Guard of the sampling loop in `PlanarDemoObstacles::collisionFree`: with
`state = traj->at(τ)`, the disk-obstacle condition
`sqr(state[0]-center1[0])+sqr(state[1]-center1[1]) <= 4.0 or
sqr(state[0]-center2[0])+sqr(state[1]-center2[1]) <= 4.0`. -/
def obstacleHit (o : PlanarDemoObstacles) (traj : InterpolatingPolynomial) (τ : ℚ) : Prop :=
  sqr (traj.atTime τ 0 - o.center1 0) + sqr (traj.atTime τ 1 - o.center1 1) ≤ 4 ∨
  sqr (traj.atTime τ 0 - o.center2 0) + sqr (traj.atTime τ 1 - o.center2 1) ≤ 4

instance (o : PlanarDemoObstacles) (traj : InterpolatingPolynomial) (τ : ℚ) :
    Decidable (obstacleHit o traj τ) :=
  inferInstanceAs (Decidable (_ ≤ _ ∨ _ ≤ _))

/-- Loop of `PlanarDemoObstacles::collisionFree`: starting from accumulated
time `t`, run `n` more iterations of
`for(int i=0;i<resolution;i++){ t+=dt; ... }`. -/
def collisionFreeLoop (o : PlanarDemoObstacles) (traj : InterpolatingPolynomial) (dt : ℚ) :
    ℚ → ℕ → Bool
  | _, 0 => true
  | t, n + 1 =>
    let t' := t + dt
    if obstacleHit o traj t' then
      false
    else
      collisionFreeLoop o traj dt t' n

/-- Model of `PlanarDemoObstacles::collisionFree`: `t` starts at
`traj->initialTime()`, `dt = (numberOfIntervals*intervalLength)/resolution`,
and the loop body runs `resolution` times. -/
def PlanarDemoObstacles.collisionFree (o : PlanarDemoObstacles)
    (traj : InterpolatingPolynomial) : Bool :=
  let t := traj.initialTime
  let dt := ((traj.numberOfIntervals : ℚ) * traj.intervalLength) / (o.resolution : ℚ)
  collisionFreeLoop o traj dt t o.resolution.toNat

/-- Model of the `CarControlInputs(int num_steering_angles)` constructor: for
the single car speed `1.0` and each steering angle produced by
`glc::linearSpace(-0.0625*M_PI, 0.0625*M_PI, num_steering_angles)`, the
control vector `(speed, angle)` is added to the input set.  The library
function `linearSpace` is not part of the sources of this repository, so the
constructor is parameterized by the list of steering angles it returns. -/
def CarControlInputs (steering_angles : List ℝ) : List (List ℝ) :=
  [(1 : ℝ)].flatMap (fun vel => steering_angles.map (fun ang => [vel, ang]))

/-- The value of `alg_params.control_dim` set in `main`. -/
def control_dim : ℕ := 2

/-- Sample time number `i` of the sampling loops: `t0 + i * delta` with
`delta = duration/resolution`. -/
def sampleTime (traj : InterpolatingPolynomial) (r : ℤ) (i : ℕ) : ℚ :=
  traj.initialTime + (i : ℚ) * (traj.duration / (r : ℚ))

/-! ### Concrete instances used to exercise the theorems -/

/-- Concrete segment moving along the x-axis: state at time `t` is `(t, 0)`. -/
def demoTrajA : InterpolatingPolynomial := ⟨0, 2, 1, fun t => vec2 t 0⟩

/-- Concrete segment moving along the line `y = 2`: state at `t` is `(t, 2)`. -/
def demoTrajB : InterpolatingPolynomial := ⟨0, 2, 1, fun t => vec2 t 2⟩

/-- Concrete segment constantly at `(1, 0)`. -/
def demoTrajC : InterpolatingPolynomial := ⟨0, 1, 1, fun _ => vec2 1 0⟩

/-- Concrete segment constantly at `(1, 2)`. -/
def demoTrajD : InterpolatingPolynomial := ⟨0, 1, 1, fun _ => vec2 1 2⟩

/-- Concrete goal instance: squared radius 25 around the origin, resolution 2. -/
def demoGoal : Sphericalgoal := ⟨25, vec2 0 0, 2⟩

/-- Concrete goal instance whose boundary passes exactly through `(1, 0)`. -/
def demoGoalBoundary : Sphericalgoal := ⟨1, vec2 0 0, 1⟩

/-- Concrete goal instance with empty interior (negative squared radius). -/
def demoGoalEmpty : Sphericalgoal := ⟨-1, vec2 0 0, 2⟩

/-- Concrete heuristic instance: goal at the origin, radius 1. -/
def demoHeuristic : EuclideanHeuristic := ⟨1, fun _ => 0⟩

/-- Concrete cost instance, as constructed in `main`. -/
def demoArcLength : ArcLength := ArcLength.ofSampleResolution 4

/-! ### Loop characterization lemmas -/

/-- Cast arithmetic for shifting the sample index by one. -/
lemma shiftTime (t dt : ℚ) (i : ℕ) :
    t + dt + (i : ℚ) * dt = t + ((i + 1 : ℕ) : ℚ) * dt := by
  push_cast
  ring

/-- The goal loop returns true exactly when one of the `n` samples after `t`
satisfies the goal guard. -/
lemma inGoalLoop_fst_true_iff (g : Sphericalgoal) (traj : InterpolatingPolynomial)
    (dt : ℚ) :
    ∀ (n : ℕ) (t : ℚ),
      ((inGoalLoop g traj dt t n).1 = true ↔
        ∃ i : ℕ, 1 ≤ i ∧ i ≤ n ∧ goalHit g traj (t + (i : ℚ) * dt)) := by
  intro n
  induction n with
  | zero =>
    intro t
    simp only [inGoalLoop]
    constructor
    · intro h
      exact absurd h (by simp)
    · rintro ⟨i, h1, h0, -⟩
      omega
  | succ n ih =>
    intro t
    simp only [inGoalLoop]
    split_ifs with h
    · constructor
      · intro _
        exact ⟨1, le_refl 1, by omega, by simpa using h⟩
      · intro _
        rfl
    · rw [ih (t + dt)]
      constructor
      · rintro ⟨i, h1, hn, hq⟩
        refine ⟨i + 1, by omega, by omega, ?_⟩
        rwa [shiftTime] at hq
      · rintro ⟨i, h1, hn, hq⟩
        match i, h1 with
        | 1, _ =>
          exfalso
          apply h
          simpa using hq
        | (j + 2), _ =>
          refine ⟨j + 1, by omega, by omega, ?_⟩
          rw [shiftTime]
          exact hq

/-- When the goal loop returns false, the out-parameter has been advanced by
all `n` steps. -/
lemma inGoalLoop_snd_of_fst_false (g : Sphericalgoal) (traj : InterpolatingPolynomial)
    (dt : ℚ) :
    ∀ (n : ℕ) (t : ℚ), (inGoalLoop g traj dt t n).1 = false →
      (inGoalLoop g traj dt t n).2 = t + (n : ℚ) * dt := by
  intro n
  induction n with
  | zero =>
    intro t _
    simp [inGoalLoop]
  | succ n ih =>
    intro t hfalse
    rw [inGoalLoop] at hfalse ⊢
    split_ifs at hfalse ⊢ with h
    · rw [ih (t + dt) hfalse, shiftTime]

/-- If `j` is the least sample index satisfying the goal guard, the goal loop
stops there and reports that sample time. -/
lemma inGoalLoop_eq_of_least (g : Sphericalgoal) (traj : InterpolatingPolynomial)
    (dt : ℚ) :
    ∀ (n : ℕ) (t : ℚ) (j : ℕ), 1 ≤ j → j ≤ n → goalHit g traj (t + (j : ℚ) * dt) →
      (∀ i : ℕ, 1 ≤ i → i < j → ¬ goalHit g traj (t + (i : ℚ) * dt)) →
      inGoalLoop g traj dt t n = (true, t + (j : ℚ) * dt) := by
  intro n
  induction n with
  | zero =>
    intro t j h1 h0 _ _
    omega
  | succ n ih =>
    intro t j h1 hn hj hmin
    rw [inGoalLoop]
    split_ifs with h
    · have hj1 : j = 1 := by
        by_contra hne
        exact hmin 1 le_rfl (by omega) (by simpa using h)
      subst hj1
      simp
    · match j, h1 with
      | 1, _ =>
        exact absurd (by simpa using hj) h
      | (j + 2), _ =>
        rw [ih (t + dt) (j + 1) (by omega) (by omega) (by rwa [shiftTime]) ?_]
        · rw [shiftTime]
        · intro i hi1 hij
          have := hmin (i + 1) (by omega) (by omega)
          rw [shiftTime]
          exact this

/-- The goal loop only looks at the trajectory through its samples: two
trajectories agreeing on all sampled states give equal loop results. -/
lemma inGoalLoop_congr (g : Sphericalgoal) (traj traj' : InterpolatingPolynomial)
    (dt : ℚ) :
    ∀ (n : ℕ) (t : ℚ),
      (∀ i : ℕ, 1 ≤ i → i ≤ n →
        traj'.atTime (t + (i : ℚ) * dt) = traj.atTime (t + (i : ℚ) * dt)) →
      inGoalLoop g traj' dt t n = inGoalLoop g traj dt t n := by
  intro n
  induction n with
  | zero =>
    intro t _
    rfl
  | succ n ih =>
    intro t hsame
    have h1 : traj'.atTime (t + dt) = traj.atTime (t + dt) := by
      have := hsame 1 le_rfl (by omega)
      simpa using this
    rw [inGoalLoop, inGoalLoop]
    have hguard : goalHit g traj' (t + dt) ↔ goalHit g traj (t + dt) := by
      unfold goalHit
      rw [h1]
    refine if_congr hguard rfl ?_
    apply ih (t + dt)
    intro i hi1 hin
    have := hsame (i + 1) (by omega) (by omega)
    rwa [shiftTime]

/-- The obstacle loop returns false exactly when one of the `n` samples after
`t` satisfies the obstacle guard. -/
lemma collisionFreeLoop_false_iff (o : PlanarDemoObstacles)
    (traj : InterpolatingPolynomial) (dt : ℚ) :
    ∀ (n : ℕ) (t : ℚ),
      (collisionFreeLoop o traj dt t n = false ↔
        ∃ i : ℕ, 1 ≤ i ∧ i ≤ n ∧ obstacleHit o traj (t + (i : ℚ) * dt)) := by
  intro n
  induction n with
  | zero =>
    intro t
    simp only [collisionFreeLoop]
    constructor
    · intro h
      exact absurd h (by simp)
    · rintro ⟨i, h1, h0, -⟩
      omega
  | succ n ih =>
    intro t
    simp only [collisionFreeLoop]
    split_ifs with h
    · constructor
      · intro _
        exact ⟨1, le_refl 1, by omega, by simpa using h⟩
      · intro _
        rfl
    · rw [ih (t + dt)]
      constructor
      · rintro ⟨i, h1, hn, hq⟩
        refine ⟨i + 1, by omega, by omega, ?_⟩
        rwa [shiftTime] at hq
      · rintro ⟨i, h1, hn, hq⟩
        match i, h1 with
        | 1, _ =>
          exact absurd (by simpa using hq) h
        | (j + 2), _ =>
          refine ⟨j + 1, by omega, by omega, ?_⟩
          rw [shiftTime]
          exact hq

/-- The obstacle loop only looks at the trajectory through its samples. -/
lemma collisionFreeLoop_congr (o : PlanarDemoObstacles)
    (traj traj' : InterpolatingPolynomial) (dt : ℚ) :
    ∀ (n : ℕ) (t : ℚ),
      (∀ i : ℕ, 1 ≤ i → i ≤ n →
        traj'.atTime (t + (i : ℚ) * dt) = traj.atTime (t + (i : ℚ) * dt)) →
      collisionFreeLoop o traj' dt t n = collisionFreeLoop o traj dt t n := by
  intro n
  induction n with
  | zero =>
    intro t _
    rfl
  | succ n ih =>
    intro t hsame
    have h1 : traj'.atTime (t + dt) = traj.atTime (t + dt) := by
      have := hsame 1 le_rfl (by omega)
      simpa using this
    rw [collisionFreeLoop, collisionFreeLoop]
    have hguard : obstacleHit o traj' (t + dt) ↔ obstacleHit o traj (t + dt) := by
      unfold obstacleHit
      rw [h1]
    refine if_congr hguard rfl ?_
    apply ih (t + dt)
    intro i hi1 hin
    have := hsame (i + 1) (by omega) (by omega)
    rwa [shiftTime]

/-! ### Claims -/

/-- Claim C1: for every `Sphericalgoal` with resolution `r ≥ 1` and every
segment, `inGoal` returns true exactly when one of the `r` interior samples
`traj.at(t0 + i*delta)`, `i = 1..r`, `delta = duration/r`, lies strictly
inside the goal disk; when it returns true the out-parameter `time` is the
earliest such sampled instant; and the result depends on the trajectory only
through the `r` interior samples (in particular the initial instant `t0` is
never evaluated on its own). -/
theorem C1_inGoal_sampling (g : Sphericalgoal) (traj : InterpolatingPolynomial)
    (hr : 1 ≤ g.resolution) :
    (((g.inGoal traj).1 = true ↔
        ∃ i : ℕ, 1 ≤ i ∧ (i : ℤ) ≤ g.resolution ∧
          goalHit g traj (sampleTime traj g.resolution i)) ∧
      ((g.inGoal traj).1 = true →
        ∃ i : ℕ, 1 ≤ i ∧ (i : ℤ) ≤ g.resolution ∧
          goalHit g traj (sampleTime traj g.resolution i) ∧
          (∀ j : ℕ, 1 ≤ j → j < i → ¬ goalHit g traj (sampleTime traj g.resolution j)) ∧
          (g.inGoal traj).2 = sampleTime traj g.resolution i) ∧
      (∀ traj' : InterpolatingPolynomial,
        traj'.initialTime = traj.initialTime →
        traj'.numberOfIntervals = traj.numberOfIntervals →
        traj'.intervalLength = traj.intervalLength →
        (∀ i : ℕ, 1 ≤ i → (i : ℤ) ≤ g.resolution →
          traj'.atTime (sampleTime traj g.resolution i) =
            traj.atTime (sampleTime traj g.resolution i)) →
        g.inGoal traj' = g.inGoal traj)) := by
  have hrange : ∀ i : ℕ, (i ≤ g.resolution.toNat ↔ (i : ℤ) ≤ g.resolution) := by
    intro i
    omega
  have hsample : ∀ i : ℕ,
      traj.initialTime + (i : ℚ) *
          (((traj.numberOfIntervals : ℚ) * traj.intervalLength) / (g.resolution : ℚ)) =
        sampleTime traj g.resolution i := fun _ => rfl
  have hunfold : g.inGoal traj =
      inGoalLoop g traj
        (((traj.numberOfIntervals : ℚ) * traj.intervalLength) / (g.resolution : ℚ))
        traj.initialTime g.resolution.toNat := rfl
  refine ⟨?_, ?_, ?_⟩
  · rw [hunfold, inGoalLoop_fst_true_iff]
    constructor
    · rintro ⟨i, h1, hn, hq⟩
      exact ⟨i, h1, (hrange i).1 hn, by rwa [hsample] at hq⟩
    · rintro ⟨i, h1, hn, hq⟩
      exact ⟨i, h1, (hrange i).2 hn, by rwa [← hsample] at hq⟩
  · intro htrue
    have hex : ∃ i : ℕ, 1 ≤ i ∧ i ≤ g.resolution.toNat ∧
        goalHit g traj (traj.initialTime + (i : ℚ) *
          (((traj.numberOfIntervals : ℚ) * traj.intervalLength) / (g.resolution : ℚ))) := by
      rw [hunfold, inGoalLoop_fst_true_iff] at htrue
      exact htrue
    obtain ⟨j, hjS, hjmin⟩ := wellFounded_lt.has_min
      {i : ℕ | 1 ≤ i ∧ i ≤ g.resolution.toNat ∧
        goalHit g traj (traj.initialTime + (i : ℚ) *
          (((traj.numberOfIntervals : ℚ) * traj.intervalLength) / (g.resolution : ℚ)))} hex
    obtain ⟨hj1, hjn, hjq⟩ := hjS
    have hmin : ∀ i : ℕ, 1 ≤ i → i < j →
        ¬ goalHit g traj (traj.initialTime + (i : ℚ) *
          (((traj.numberOfIntervals : ℚ) * traj.intervalLength) / (g.resolution : ℚ))) := by
      intro i h1 hij hq
      exact hjmin i ⟨h1, by omega, hq⟩ hij
    have heq := inGoalLoop_eq_of_least g traj
      (((traj.numberOfIntervals : ℚ) * traj.intervalLength) / (g.resolution : ℚ))
      g.resolution.toNat traj.initialTime j hj1 hjn hjq hmin
    refine ⟨j, hj1, (hrange j).1 hjn, by rwa [hsample] at hjq, ?_, ?_⟩
    · intro i h1 hij
      rw [← hsample]
      exact hmin i h1 hij
    · rw [hunfold, heq, hsample]
  · intro traj' h0 hN hL hA
    have hunfold' : g.inGoal traj' =
        inGoalLoop g traj'
          (((traj'.numberOfIntervals : ℚ) * traj'.intervalLength) / (g.resolution : ℚ))
          traj'.initialTime g.resolution.toNat := rfl
    rw [hunfold, hunfold', hN, hL, h0]
    apply inGoalLoop_congr
    intro i h1 hn
    rw [hsample]
    exact hA i h1 ((hrange i).1 hn)

/-- Witness for C1 at the concrete goal `demoGoal` and segment `demoTrajA`. -/
theorem C1_witness :
    (1 : ℤ) ≤ demoGoal.resolution ∧
    (((demoGoal.inGoal demoTrajA).1 = true ↔
        ∃ i : ℕ, 1 ≤ i ∧ (i : ℤ) ≤ demoGoal.resolution ∧
          goalHit demoGoal demoTrajA (sampleTime demoTrajA demoGoal.resolution i)) ∧
      ((demoGoal.inGoal demoTrajA).1 = true →
        ∃ i : ℕ, 1 ≤ i ∧ (i : ℤ) ≤ demoGoal.resolution ∧
          goalHit demoGoal demoTrajA (sampleTime demoTrajA demoGoal.resolution i) ∧
          (∀ j : ℕ, 1 ≤ j → j < i →
            ¬ goalHit demoGoal demoTrajA (sampleTime demoTrajA demoGoal.resolution j)) ∧
          (demoGoal.inGoal demoTrajA).2 = sampleTime demoTrajA demoGoal.resolution i) ∧
      (∀ traj' : InterpolatingPolynomial,
        traj'.initialTime = demoTrajA.initialTime →
        traj'.numberOfIntervals = demoTrajA.numberOfIntervals →
        traj'.intervalLength = demoTrajA.intervalLength →
        (∀ i : ℕ, 1 ≤ i → (i : ℤ) ≤ demoGoal.resolution →
          traj'.atTime (sampleTime demoTrajA demoGoal.resolution i) =
            demoTrajA.atTime (sampleTime demoTrajA demoGoal.resolution i)) →
        demoGoal.inGoal traj' = demoGoal.inGoal demoTrajA)) :=
  ⟨by decide, C1_inGoal_sampling demoGoal demoTrajA (by decide)⟩

/-- Claim C2: for every `PlanarDemoObstacles` built with resolution `r ≥ 1`
and every segment, `collisionFree` returns false exactly when one of the `r`
interior samples lies at squared planar distance at most 4 from `(3,2)` or
from `(6,8)`; a single violating sample invalidates the segment, and the
result depends on the trajectory only through the `r` interior samples (the
initial instant is never checked on its own). -/
theorem C2_collisionFree_sampling (r : ℤ) (traj : InterpolatingPolynomial)
    (hr : 1 ≤ r) :
    (((PlanarDemoObstacles.ofResolution r).collisionFree traj = false ↔
        ∃ i : ℕ, 1 ≤ i ∧ (i : ℤ) ≤ r ∧
          (sqr (traj.atTime (sampleTime traj r i) 0 - 3) +
              sqr (traj.atTime (sampleTime traj r i) 1 - 2) ≤ 4 ∨
            sqr (traj.atTime (sampleTime traj r i) 0 - 6) +
              sqr (traj.atTime (sampleTime traj r i) 1 - 8) ≤ 4)) ∧
      (∀ traj' : InterpolatingPolynomial,
        traj'.initialTime = traj.initialTime →
        traj'.numberOfIntervals = traj.numberOfIntervals →
        traj'.intervalLength = traj.intervalLength →
        (∀ i : ℕ, 1 ≤ i → (i : ℤ) ≤ r →
          traj'.atTime (sampleTime traj r i) = traj.atTime (sampleTime traj r i)) →
        (PlanarDemoObstacles.ofResolution r).collisionFree traj' =
          (PlanarDemoObstacles.ofResolution r).collisionFree traj)) := by
  have hrange : ∀ i : ℕ, (i ≤ r.toNat ↔ (i : ℤ) ≤ r) := by
    intro i
    omega
  have hsample : ∀ i : ℕ,
      traj.initialTime + (i : ℚ) *
          (((traj.numberOfIntervals : ℚ) * traj.intervalLength) / (r : ℚ)) =
        sampleTime traj r i := fun _ => rfl
  have hunfold : (PlanarDemoObstacles.ofResolution r).collisionFree traj =
      collisionFreeLoop (PlanarDemoObstacles.ofResolution r) traj
        (((traj.numberOfIntervals : ℚ) * traj.intervalLength) / (r : ℚ))
        traj.initialTime r.toNat := rfl
  have hhit : ∀ τ : ℚ, obstacleHit (PlanarDemoObstacles.ofResolution r) traj τ ↔
      (sqr (traj.atTime τ 0 - 3) + sqr (traj.atTime τ 1 - 2) ≤ 4 ∨
        sqr (traj.atTime τ 0 - 6) + sqr (traj.atTime τ 1 - 8) ≤ 4) := by
    intro τ
    unfold obstacleHit PlanarDemoObstacles.ofResolution vec2
    norm_num
  constructor
  · rw [hunfold, collisionFreeLoop_false_iff]
    constructor
    · rintro ⟨i, h1, hn, hq⟩
      rw [hsample, hhit] at hq
      exact ⟨i, h1, (hrange i).1 hn, hq⟩
    · rintro ⟨i, h1, hn, hq⟩
      refine ⟨i, h1, (hrange i).2 hn, ?_⟩
      rw [hsample, hhit]
      exact hq
  · intro traj' h0 hN hL hA
    have hunfold' : (PlanarDemoObstacles.ofResolution r).collisionFree traj' =
        collisionFreeLoop (PlanarDemoObstacles.ofResolution r) traj'
          (((traj'.numberOfIntervals : ℚ) * traj'.intervalLength) / (r : ℚ))
          traj'.initialTime r.toNat := rfl
    rw [hunfold, hunfold', hN, hL, h0]
    apply collisionFreeLoop_congr
    intro i h1 hn
    rw [hsample]
    exact hA i h1 ((hrange i).1 hn)

/-- Witness for C2 at resolution 2 and the concrete segment `demoTrajB`. -/
theorem C2_witness :
    (1 : ℤ) ≤ 2 ∧
    (((PlanarDemoObstacles.ofResolution 2).collisionFree demoTrajB = false ↔
        ∃ i : ℕ, 1 ≤ i ∧ (i : ℤ) ≤ 2 ∧
          (sqr (demoTrajB.atTime (sampleTime demoTrajB 2 i) 0 - 3) +
              sqr (demoTrajB.atTime (sampleTime demoTrajB 2 i) 1 - 2) ≤ 4 ∨
            sqr (demoTrajB.atTime (sampleTime demoTrajB 2 i) 0 - 6) +
              sqr (demoTrajB.atTime (sampleTime demoTrajB 2 i) 1 - 8) ≤ 4)) ∧
      (∀ traj' : InterpolatingPolynomial,
        traj'.initialTime = demoTrajB.initialTime →
        traj'.numberOfIntervals = demoTrajB.numberOfIntervals →
        traj'.intervalLength = demoTrajB.intervalLength →
        (∀ i : ℕ, 1 ≤ i → (i : ℤ) ≤ 2 →
          traj'.atTime (sampleTime demoTrajB 2 i) =
            demoTrajB.atTime (sampleTime demoTrajB 2 i)) →
        (PlanarDemoObstacles.ofResolution 2).collisionFree traj' =
          (PlanarDemoObstacles.ofResolution 2).collisionFree demoTrajB)) :=
  ⟨by decide, C2_collisionFree_sampling 2 demoTrajB (by decide)⟩

/-- Claim C3: the Euclidean heuristic is admissible with respect to
arc-length cost: for any state and any planar point `(p0, p1)` inside the goal
disk (squared distance to the goal center at most the squared radius, the
radius being nonnegative), `costToGo` is at most the Euclidean distance from
the planar position of the state to that point. -/
theorem C3_heuristic_admissible (h : EuclideanHeuristic) (state : ℕ → ℝ) (p0 p1 : ℝ)
    (hrad : 0 ≤ h.radius)
    (hp : sqr (p0 - h.goal 0) + sqr (p1 - h.goal 1) ≤ sqr h.radius) :
    h.costToGo state ≤ Real.sqrt (sqr (state 0 - p0) + sqr (state 1 - p1)) := by
  have habs : ∀ x y : ℝ, Real.sqrt (sqr x + sqr y) = Complex.abs ⟨x, y⟩ := by
    intro x y
    rw [Complex.abs_apply, Complex.normSq_mk, sqr, sqr]
  have hswap : ∀ x y : ℝ, sqr (x - y) = sqr (y - x) := by
    intro x y
    simp only [sqr]
    ring
  have hC : Real.sqrt (sqr (p0 - h.goal 0) + sqr (p1 - h.goal 1)) ≤ h.radius := by
    calc Real.sqrt (sqr (p0 - h.goal 0) + sqr (p1 - h.goal 1)) ≤ Real.sqrt (sqr h.radius) :=
          Real.sqrt_le_sqrt hp
      _ = h.radius := by rw [sqr, Real.sqrt_mul_self hrad]
  have htri : Real.sqrt (sqr (h.goal 0 - state 0) + sqr (h.goal 1 - state 1)) ≤
      Real.sqrt (sqr (state 0 - p0) + sqr (state 1 - p1)) +
        Real.sqrt (sqr (p0 - h.goal 0) + sqr (p1 - h.goal 1)) := by
    rw [hswap (h.goal 0) (state 0), hswap (h.goal 1) (state 1)]
    rw [habs, habs, habs]
    have hsplit : (⟨state 0 - h.goal 0, state 1 - h.goal 1⟩ : ℂ) =
        (⟨state 0 - p0, state 1 - p1⟩ : ℂ) + (⟨p0 - h.goal 0, p1 - h.goal 1⟩ : ℂ) := by
      apply Complex.ext <;> simp
    rw [hsplit]
    exact Complex.abs.add_le _ _
  unfold EuclideanHeuristic.costToGo
  apply max_le (Real.sqrt_nonneg _)
  linarith [htri, hC]

/-- Witness for C3 at the concrete heuristic `demoHeuristic`, the state at
the origin, and the goal-disk point `(1, 0)`. -/
theorem C3_witness :
    (0 : ℝ) ≤ demoHeuristic.radius ∧
    sqr ((1 : ℝ) - demoHeuristic.goal 0) + sqr ((0 : ℝ) - demoHeuristic.goal 1) ≤
      sqr demoHeuristic.radius ∧
    demoHeuristic.costToGo (fun _ => 0) ≤
      Real.sqrt (sqr ((0 : ℝ) - 1) + sqr ((0 : ℝ) - 0)) :=
  ⟨by norm_num [demoHeuristic], by norm_num [demoHeuristic, sqr],
    C3_heuristic_admissible demoHeuristic (fun _ => 0) 1 0
      (by norm_num [demoHeuristic]) (by norm_num [demoHeuristic, sqr])⟩

/-- Claim C7: `costToGo` always returns a nonnegative real, equal to
`max(0, sqrt(sqr(goal[0]-state[0]) + sqr(goal[1]-state[1])) - radius)`, for
every input state, including states strictly inside the goal disk. -/
theorem C7_costToGo_nonneg (h : EuclideanHeuristic) (state : ℕ → ℝ) :
    0 ≤ h.costToGo state ∧
    h.costToGo state =
      max 0 (Real.sqrt (sqr (h.goal 0 - state 0) + sqr (h.goal 1 - state 1)) - h.radius) :=
  ⟨le_max_left 0 _, rfl⟩

/-- Claim C4: `ArcLength::cost` equals
`traj.numberOfIntervals() * traj.intervalLength()`; it is independent of the
control segment and of `t0`, `tf`; it is nonnegative whenever both the
interval count and interval length are nonnegative; and it is monotonically
non-decreasing in the segment duration. -/
theorem C4_arcLength_cost (a : ArcLength) (traj traj2 control control2 : InterpolatingPolynomial)
    (t0 tf t0' tf' : ℚ) :
    a.cost traj control t0 tf = (traj.numberOfIntervals : ℚ) * traj.intervalLength ∧
    a.cost traj control t0 tf = a.cost traj control2 t0' tf' ∧
    (0 ≤ traj.numberOfIntervals → 0 ≤ traj.intervalLength → 0 ≤ a.cost traj control t0 tf) ∧
    (traj.duration ≤ traj2.duration →
      a.cost traj control t0 tf ≤ a.cost traj2 control t0 tf) := by
  refine ⟨rfl, rfl, ?_, ?_⟩
  · intro hn hl
    have hn' : (0 : ℚ) ≤ (traj.numberOfIntervals : ℚ) := by exact_mod_cast hn
    exact mul_nonneg hn' hl
  · intro hd
    exact hd

/-- Witness for C4 at the concrete cost `demoArcLength` and the segments
`demoTrajC` (duration 1) and `demoTrajA` (duration 2). -/
theorem C4_witness :
    (0 : ℤ) ≤ demoTrajC.numberOfIntervals ∧
    (0 : ℚ) ≤ demoTrajC.intervalLength ∧
    demoTrajC.duration ≤ demoTrajA.duration ∧
    (demoArcLength.cost demoTrajC demoTrajD 0 1 =
        (demoTrajC.numberOfIntervals : ℚ) * demoTrajC.intervalLength ∧
      demoArcLength.cost demoTrajC demoTrajD 0 1 = demoArcLength.cost demoTrajC demoTrajB 5 7 ∧
      (0 ≤ demoTrajC.numberOfIntervals → 0 ≤ demoTrajC.intervalLength →
        0 ≤ demoArcLength.cost demoTrajC demoTrajD 0 1) ∧
      (demoTrajC.duration ≤ demoTrajA.duration →
        demoArcLength.cost demoTrajC demoTrajD 0 1 ≤
          demoArcLength.cost demoTrajA demoTrajD 0 1)) :=
  ⟨by decide, by decide,
    by norm_num [InterpolatingPolynomial.duration, demoTrajC, demoTrajA],
    C4_arcLength_cost demoArcLength demoTrajC demoTrajA demoTrajD demoTrajB 0 1 5 7⟩

/-- Claim C5: for any count `n ≥ 1` of steering angles, given that
`linearSpace` yields `n` values in `[-0.0625*π, 0.0625*π]`, the constructed
control input set has exactly `n` samples, is non-empty, and every sample is a
vector of dimension `control_dim = 2` whose first component is `1.0` and whose
second component lies in `[-0.0625*π, 0.0625*π]`.  (The set is a plain value
in this embedding, so no mutation after construction is possible.) -/
theorem C5_carControlInputs (n : ℕ) (angles : List ℝ) (hn : 1 ≤ n)
    (hlen : angles.length = n)
    (hin : ∀ a ∈ angles, -0.0625 * Real.pi ≤ a ∧ a ≤ 0.0625 * Real.pi) :
    (CarControlInputs angles).length = n ∧
    CarControlInputs angles ≠ [] ∧
    ∀ u ∈ CarControlInputs angles, u.length = control_dim ∧
      ∃ ang, u = [1, ang] ∧ -0.0625 * Real.pi ≤ ang ∧ ang ≤ 0.0625 * Real.pi := by
  have hmap : CarControlInputs angles = angles.map (fun ang => [(1 : ℝ), ang]) := by
    simp [CarControlInputs]
  have hlen' : (CarControlInputs angles).length = n := by
    rw [hmap, List.length_map, hlen]
  refine ⟨hlen', ?_, ?_⟩
  · intro hempty
    rw [hempty] at hlen'
    simp at hlen'
    omega
  · intro u hu
    rw [hmap] at hu
    rcases List.mem_map.mp hu with ⟨ang, hang, rfl⟩
    exact ⟨rfl, ang, rfl, (hin ang hang).1, (hin ang hang).2⟩

/-- Witness for C5 with the single steering angle `0`. -/
theorem C5_witness :
    1 ≤ 1 ∧
    ([(0 : ℝ)].length = 1) ∧
    (∀ a ∈ [(0 : ℝ)], -0.0625 * Real.pi ≤ a ∧ a ≤ 0.0625 * Real.pi) ∧
    ((CarControlInputs [(0 : ℝ)]).length = 1 ∧
      CarControlInputs [(0 : ℝ)] ≠ [] ∧
      ∀ u ∈ CarControlInputs [(0 : ℝ)], u.length = control_dim ∧
        ∃ ang, u = [1, ang] ∧ -0.0625 * Real.pi ≤ ang ∧ ang ≤ 0.0625 * Real.pi) :=
  have hzero : ∀ a ∈ [(0 : ℝ)], -0.0625 * Real.pi ≤ a ∧ a ≤ 0.0625 * Real.pi := by
    intro a ha
    rw [List.mem_singleton] at ha
    subst ha
    constructor <;> nlinarith [Real.pi_pos]
  ⟨le_refl 1, by norm_num, hzero, C5_carControlInputs 1 [(0 : ℝ)] le_rfl (by norm_num) hzero⟩

/-- Claim C6: the four collaborator functions are deterministic and
side-effect-free: their results are functions of the listed member fields and
the explicit arguments alone (in this functional embedding no invocation can
modify the member state, and equal member state plus equal arguments give
equal results). -/
theorem C6_collaborators_deterministic :
    (∀ g g' : Sphericalgoal, g.radius_sqr = g'.radius_sqr → g.center = g'.center →
      g.resolution = g'.resolution →
      ∀ traj : InterpolatingPolynomial, g.inGoal traj = g'.inGoal traj) ∧
    (∀ h h' : EuclideanHeuristic, h.radius = h'.radius → h.goal = h'.goal →
      ∀ state : ℕ → ℝ, h.costToGo state = h'.costToGo state) ∧
    (∀ a a' : ArcLength, a.sample_resolution = a'.sample_resolution →
      ∀ (traj control : InterpolatingPolynomial) (t0 tf : ℚ),
        a.cost traj control t0 tf = a'.cost traj control t0 tf) ∧
    (∀ o o' : PlanarDemoObstacles, o.resolution = o'.resolution →
      o.center1 = o'.center1 → o.center2 = o'.center2 →
      ∀ traj : InterpolatingPolynomial, o.collisionFree traj = o'.collisionFree traj) := by
  refine ⟨?_, ?_, ?_, ?_⟩
  · intro g g' h1 h2 h3 traj
    have hgg : g = g' := by
      cases g
      cases g'
      simp_all
    rw [hgg]
  · intro h h' h1 h2 state
    have hhh : h = h' := by
      cases h
      cases h'
      simp_all
    rw [hhh]
  · intro a a' h1 traj control t0 tf
    have haa : a = a' := by
      cases a
      cases a'
      simp_all
    rw [haa]
  · intro o o' h1 h2 h3 traj
    have hoo : o = o' := by
      cases o
      cases o'
      simp_all
    rw [hoo]

/-- Witness for C6 at concrete instances of all four collaborators. -/
theorem C6_witness :
    demoGoal.inGoal demoTrajA = demoGoal.inGoal demoTrajA ∧
    demoHeuristic.costToGo (fun _ => 0) = demoHeuristic.costToGo (fun _ => 0) ∧
    demoArcLength.cost demoTrajC demoTrajD 0 1 = demoArcLength.cost demoTrajC demoTrajD 0 1 ∧
    (PlanarDemoObstacles.ofResolution 2).collisionFree demoTrajB =
      (PlanarDemoObstacles.ofResolution 2).collisionFree demoTrajB :=
  ⟨C6_collaborators_deterministic.1 demoGoal demoGoal rfl rfl rfl demoTrajA,
    C6_collaborators_deterministic.2.1 demoHeuristic demoHeuristic rfl rfl (fun _ => 0),
    C6_collaborators_deterministic.2.2.1 demoArcLength demoArcLength rfl demoTrajC demoTrajD 0 1,
    C6_collaborators_deterministic.2.2.2 (PlanarDemoObstacles.ofResolution 2)
      (PlanarDemoObstacles.ofResolution 2) rfl rfl rfl demoTrajB⟩


/-- A goal with negative squared radius is never entered: the loop guard
compares a sum of squares against a negative number. -/
lemma inGoal_fst_false_of_neg (g : Sphericalgoal) (traj : InterpolatingPolynomial)
    (hneg : g.radius_sqr < 0) : (g.inGoal traj).1 = false := by
  cases hfst : (g.inGoal traj).1 with
  | false => rfl
  | true =>
    exfalso
    rw [show g.inGoal traj =
        inGoalLoop g traj
          (((traj.numberOfIntervals : ℚ) * traj.intervalLength) / (g.resolution : ℚ))
          traj.initialTime g.resolution.toNat from rfl,
      inGoalLoop_fst_true_iff] at hfst
    obtain ⟨i, -, -, hq⟩ := hfst
    unfold goalHit at hq
    simp only [sqr] at hq
    nlinarith [mul_self_nonneg
        (traj.atTime (traj.initialTime + (i : ℚ) *
          (((traj.numberOfIntervals : ℚ) * traj.intervalLength) / (g.resolution : ℚ))) 0 -
          g.center 0),
      mul_self_nonneg
        (traj.atTime (traj.initialTime + (i : ℚ) *
          (((traj.numberOfIntervals : ℚ) * traj.intervalLength) / (g.resolution : ℚ))) 1 -
          g.center 1)]

/-- Claim C8: the goal disk is open while the obstacle disks are closed: a
sampled state at squared distance exactly `radius_sqr` from the goal center is
not reported inside the goal (strict `<`), while a sampled state at squared
distance exactly 4 from either obstacle center is reported as a collision
(non-strict `≤`). -/
theorem C8_open_goal_closed_obstacles :
    (∀ (g : Sphericalgoal) (traj : InterpolatingPolynomial),
      (∀ i : ℕ, 1 ≤ i → (i : ℤ) ≤ g.resolution →
        sqr (traj.atTime (sampleTime traj g.resolution i) 0 - g.center 0) +
          sqr (traj.atTime (sampleTime traj g.resolution i) 1 - g.center 1) = g.radius_sqr) →
      (g.inGoal traj).1 = false) ∧
    (∀ (r : ℤ) (traj : InterpolatingPolynomial), 1 ≤ r →
      (∃ i : ℕ, 1 ≤ i ∧ (i : ℤ) ≤ r ∧
        (sqr (traj.atTime (sampleTime traj r i) 0 - 3) +
            sqr (traj.atTime (sampleTime traj r i) 1 - 2) = 4 ∨
          sqr (traj.atTime (sampleTime traj r i) 0 - 6) +
            sqr (traj.atTime (sampleTime traj r i) 1 - 8) = 4)) →
      (PlanarDemoObstacles.ofResolution r).collisionFree traj = false) := by
  constructor
  · intro g traj hb
    cases hfst : (g.inGoal traj).1 with
    | false => rfl
    | true =>
      exfalso
      rw [show g.inGoal traj =
          inGoalLoop g traj
            (((traj.numberOfIntervals : ℚ) * traj.intervalLength) / (g.resolution : ℚ))
            traj.initialTime g.resolution.toNat from rfl,
        inGoalLoop_fst_true_iff] at hfst
      obtain ⟨i, h1, hn, hq⟩ := hfst
      have hiz : (i : ℤ) ≤ g.resolution := by omega
      have hbi := hb i h1 hiz
      unfold goalHit at hq
      rw [show sampleTime traj g.resolution i =
          traj.initialTime + (i : ℚ) *
            (((traj.numberOfIntervals : ℚ) * traj.intervalLength) / (g.resolution : ℚ))
          from rfl] at hbi
      rw [hbi] at hq
      exact lt_irrefl _ hq
  · intro r traj hr hex
    obtain ⟨i, h1, hir, hd⟩ := hex
    rw [show (PlanarDemoObstacles.ofResolution r).collisionFree traj =
        collisionFreeLoop (PlanarDemoObstacles.ofResolution r) traj
          (((traj.numberOfIntervals : ℚ) * traj.intervalLength) / (r : ℚ))
          traj.initialTime r.toNat from rfl,
      collisionFreeLoop_false_iff]
    refine ⟨i, h1, by omega, ?_⟩
    have hs : traj.initialTime + (i : ℚ) *
        (((traj.numberOfIntervals : ℚ) * traj.intervalLength) / (r : ℚ)) =
        sampleTime traj r i := rfl
    rw [hs]
    have hiff : obstacleHit (PlanarDemoObstacles.ofResolution r) traj (sampleTime traj r i) ↔
        (sqr (traj.atTime (sampleTime traj r i) 0 - 3) +
            sqr (traj.atTime (sampleTime traj r i) 1 - 2) ≤ 4 ∨
          sqr (traj.atTime (sampleTime traj r i) 0 - 6) +
            sqr (traj.atTime (sampleTime traj r i) 1 - 8) ≤ 4) := by
      unfold obstacleHit PlanarDemoObstacles.ofResolution vec2
      norm_num
    rw [hiff]
    rcases hd with hd | hd
    · exact Or.inl (le_of_eq hd)
    · exact Or.inr (le_of_eq hd)

/-- Witness for C8: the boundary point `(1, 0)` of `demoGoalBoundary` is not
in the goal, and the boundary point `(1, 2)` of the first obstacle disk is a
collision. -/
theorem C8_witness :
    (demoGoalBoundary.inGoal demoTrajC).1 = false ∧
    (1 : ℤ) ≤ 1 ∧
    (PlanarDemoObstacles.ofResolution 1).collisionFree demoTrajD = false :=
  ⟨C8_open_goal_closed_obstacles.1 demoGoalBoundary demoTrajC
      (by
        intro i h1 h2
        have h2' : (i : ℤ) ≤ 1 := h2
        have hi1 : i = 1 := by omega
        subst hi1
        norm_num [demoGoalBoundary, demoTrajC, vec2, sqr]),
    le_refl 1,
    C8_open_goal_closed_obstacles.2 1 demoTrajD le_rfl
      ⟨1, le_refl 1, le_refl (1 : ℤ),
        Or.inl (by norm_num [demoTrajD, vec2, sqr])⟩⟩

/-- Claim C9: `inGoal` always overwrites its `time` out-parameter: when it
returns false (and the resolution is at least 1), the out-parameter holds the
final sampled instant, the initial time plus the full segment duration. -/
theorem C9_inGoal_time_overwritten (g : Sphericalgoal) (traj : InterpolatingPolynomial)
    (hr : 1 ≤ g.resolution) (hfalse : (g.inGoal traj).1 = false) :
    (g.inGoal traj).2 = traj.initialTime + traj.duration := by
  have hunfold : g.inGoal traj =
      inGoalLoop g traj
        (((traj.numberOfIntervals : ℚ) * traj.intervalLength) / (g.resolution : ℚ))
        traj.initialTime g.resolution.toNat := rfl
  rw [hunfold] at hfalse ⊢
  rw [inGoalLoop_snd_of_fst_false g traj _ _ _ hfalse]
  have htn : ((g.resolution.toNat : ℚ)) = ((g.resolution : ℚ)) := by
    have h0 : (0 : ℤ) ≤ g.resolution := by omega
    exact_mod_cast congrArg (Int.cast : ℤ → ℚ) (Int.toNat_of_nonneg h0)
  have hne : ((g.resolution : ℚ)) ≠ 0 := by
    have h0 : (0 : ℤ) < g.resolution := by omega
    exact_mod_cast h0.ne'
  rw [htn, InterpolatingPolynomial.duration, mul_comm ((g.resolution : ℚ)) _,
    div_mul_cancel₀ _ hne]

/-- Witness for C9: `demoGoalEmpty` is never entered by `demoTrajA`, and the
reported time is the end of that segment. -/
theorem C9_witness :
    (1 : ℤ) ≤ demoGoalEmpty.resolution ∧
    (demoGoalEmpty.inGoal demoTrajA).1 = false ∧
    (demoGoalEmpty.inGoal demoTrajA).2 = demoTrajA.initialTime + demoTrajA.duration :=
  have hfalse : (demoGoalEmpty.inGoal demoTrajA).1 = false :=
    inGoal_fst_false_of_neg demoGoalEmpty demoTrajA (by norm_num [demoGoalEmpty])
  ⟨by decide, hfalse,
    C9_inGoal_time_overwritten demoGoalEmpty demoTrajA (by decide) hfalse⟩

/-- Claim C10: with a nonpositive resolution the sampling loops run zero
times, so `inGoal` returns false with the out-parameter left at the initial
time, and `collisionFree` returns true, for every segment.  (The unguarded
step computation `duration/resolution` is modelled by total division over
`ℚ`; its value is never used.) -/
theorem C10_nonpositive_resolution (g : Sphericalgoal) (o : PlanarDemoObstacles)
    (traj traj2 : InterpolatingPolynomial) (hg : g.resolution ≤ 0) (ho : o.resolution ≤ 0) :
    g.inGoal traj = (false, traj.initialTime) ∧ o.collisionFree traj2 = true := by
  have hgn : g.resolution.toNat = 0 := by omega
  have hon : o.resolution.toNat = 0 := by omega
  constructor
  · show inGoalLoop g traj
        (((traj.numberOfIntervals : ℚ) * traj.intervalLength) / (g.resolution : ℚ))
        traj.initialTime g.resolution.toNat = (false, traj.initialTime)
    rw [hgn]
    rfl
  · show collisionFreeLoop o traj2
        (((traj2.numberOfIntervals : ℚ) * traj2.intervalLength) / (o.resolution : ℚ))
        traj2.initialTime o.resolution.toNat = true
    rw [hon]
    rfl

/-- Witness for C10 at resolution 0 (goal) and resolution -3 (obstacles). -/
theorem C10_witness :
    (Sphericalgoal.mk 1 (vec2 0 0) 0).resolution ≤ 0 ∧
    (PlanarDemoObstacles.ofResolution (-3)).resolution ≤ 0 ∧
    ((Sphericalgoal.mk 1 (vec2 0 0) 0).inGoal demoTrajA = (false, demoTrajA.initialTime) ∧
      (PlanarDemoObstacles.ofResolution (-3)).collisionFree demoTrajB = true) :=
  ⟨by decide, by decide,
    C10_nonpositive_resolution (Sphericalgoal.mk 1 (vec2 0 0) 0)
      (PlanarDemoObstacles.ofResolution (-3)) demoTrajA demoTrajB (by decide) (by decide)⟩
